import Mathlib

/-!
Verification of the Switchboard control-plane client
(`switchboard/listener_client.py` and
`switchboard/devices/unreal/plugin_unreal.py`) against its
natural-language specification.

The Python code is shallowly embedded: each method becomes a Lean
function on an explicit state record; calls into the logger, the Qt
signal layer and the outbound socket queue are recorded as `Event`
values in an effect trace; a Python exception raised inside a handler
is recorded in the `err` field of the handler result, together with
the state and trace as they stood when the exception was raised (so
partial mutation before a raise is preserved, as in Python).
-/

namespace Switchboard

/-! ## Connection model (`ListenerClient`, listener_client.py) -/

/-- State of `ListenerClient` (listener_client.py, `__init__`).

* `ip_address`: `None` is modelled as `none`; the empty string (also
  falsy in Python) as `some ""`.
* `message_queue`: the `deque`; `appendleft` is list cons, `pop` takes
  from the right end (the list's last element).
* `socket`: `none` when `self.socket is None`; `some b` models a socket
  object whose `getpeername()` call succeeds iff `b = true`.
* `last_activity`: timestamps are abstracted as naturals. -/
structure ListenerClient where
  ip_address : Option String
  port : Nat
  buffer_size : Nat
  message_queue : List String
  close_socket : Bool
  socket : Option Bool
  last_activity : Nat
deriving DecidableEq, Repr

/-- Python truthiness of an optional string: `None` and `""` are falsy. -/
def pyTruthyStr : Option String → Bool
  | none => false
  | some s => !s.isEmpty

/-- `ListenerClient.is_connected` (lines 62-72): true iff the socket
exists and `getpeername()` succeeds; a failing peer query is caught and
treated as disconnected. -/
def is_connected (c : ListenerClient) : Bool :=
  match c.socket with
  | some peer_ok => peer_ok
  | none => false

/-- Result of a `connect` call: the returned boolean, the state after
the call, and how many background I/O worker threads the call started. -/
structure ConnectResult where
  ret : Bool
  state : ListenerClient
  workers_started : Nat
deriving DecidableEq, Repr

/-- Body of `ListenerClient.connect` after the address checks
(lines 91-107): clears `close_socket`, resets `last_activity`, then
attempts the OS-level socket connect (outcome given by the `os_ok`
oracle).  On success the socket is connected (peer queryable) and one
worker thread is started; on `OSError` the socket is set back to `None`
and `False` is returned without starting a worker. -/
def connectBody (c : ListenerClient) (os_ok : Bool) (now : Nat) : ConnectResult :=
  let c := { c with close_socket := false, last_activity := now }
  if os_ok then
    ⟨true, { c with socket := some true }, 1⟩
  else
    ⟨false, { c with socket := none }, 0⟩

/-- `ListenerClient.connect` (lines 84-107).  If the `ip_address`
argument is truthy it overwrites the stored address; otherwise, if the
stored address is falsy, the method returns `False` at once (line 89)
without touching any other state. -/
def connect (c : ListenerClient) (ip_address : Option String) (os_ok : Bool)
    (now : Nat) : ConnectResult :=
  if pyTruthyStr ip_address then
    connectBody { c with ip_address := ip_address } os_ok now
  else if !(pyTruthyStr c.ip_address) then
    ⟨false, c, 0⟩
  else
    connectBody c os_ok now

/-- Outcome of `ListenerClient.send_message`: the message was enqueued,
or the client was not connected and the disconnect delegate was
signalled instead. -/
inductive SendOutcome where
  | enqueued
  | disconnectSignalled
deriving DecidableEq, Repr

/-- `ListenerClient.send_message` (lines 265-272): when connected,
`appendleft` puts the encoded message at the left end of the deque;
when not connected, nothing is enqueued and the disconnect delegate is
invoked. -/
def send_message (c : ListenerClient) (message_bytes : String) :
    ListenerClient × SendOutcome :=
  if is_connected c then
    ({ c with message_queue := message_bytes :: c.message_queue }, .enqueued)
  else
    (c, .disconnectSignalled)

/-- A sequence of `send_message` calls, in call order. -/
def sendAll (c : ListenerClient) (msgs : List String) : ListenerClient :=
  msgs.foldl (fun c m => (send_message c m).1) c

/-- `deque.pop()` as used by `handle_connection` (line 124): removes
and returns the element at the right end of the queue. -/
def popRight {α : Type} : List α → Option (α × List α)
  | [] => none
  | [m] => some (m, [])
  | m :: n :: rest =>
    match popRight (n :: rest) with
    | some (x, r') => some (x, m :: r')
    | none => none

/-- The transmit half of the background loop `handle_connection`
(lines 119-127), run to exhaustion: each loop iteration pops exactly
one message from the right end of the queue and writes it to the
socket; the result is the list of messages in transmission order.  The
queue length bounds the number of iterations needed. -/
def transmitLoop {α : Type} : Nat → List α → List α
  | 0, _ => []
  | Nat.succ fuel, q =>
    match popRight q with
    | none => []
    | some (m, q') => m :: transmitLoop fuel q'

/-- All messages the background loop transmits from a given queue, in
transmission order. -/
def transmitAll {α : Type} (q : List α) : List α := transmitLoop q.length q

theorem popRight_concat {α : Type} (l : List α) (x : α) :
    popRight (l ++ [x]) = some (x, l) := by
  induction l with
  | nil => rfl
  | cons a l ih =>
    cases l with
    | nil => simp [popRight] at ih ⊢
    | cons b l' => simp [popRight] at ih ⊢; simp [ih]

theorem transmitLoop_reverse {α : Type} :
    ∀ (n : Nat) (q : List α), q.length ≤ n → transmitLoop n q = q.reverse := by
  intro n
  induction n with
  | zero =>
    intro q hq
    have : q = [] := List.eq_nil_of_length_eq_zero (Nat.le_zero.mp hq)
    simp [this, transmitLoop, popRight]
  | succ n ih =>
    intro q hq
    rcases List.eq_nil_or_concat q with h | ⟨l, x, h⟩
    · subst h; rfl
    · subst h
      have hlen : l.length ≤ n := by
        simpa using Nat.lt_succ_iff.mp (Nat.lt_of_lt_of_le (by simp) hq)
      simp [transmitLoop, popRight_concat, ih l hlen]

theorem transmitAll_eq_reverse {α : Type} (q : List α) :
    transmitAll q = q.reverse :=
  transmitLoop_reverse q.length q (Nat.le_refl _)

theorem send_message_preserves_connected (c : ListenerClient) (m : String) :
    is_connected (send_message c m).1 = is_connected c := by
  unfold send_message
  split <;> rfl

theorem sendAll_queue (msgs : List String) :
    ∀ (c : ListenerClient), is_connected c = true →
      (sendAll c msgs).message_queue = msgs.reverse ++ c.message_queue := by
  induction msgs with
  | nil => intro c _; simp [sendAll]
  | cons m ms ih =>
    intro c hc
    have hstep : (send_message c m).1 =
        { c with message_queue := m :: c.message_queue } := by
      simp [send_message, hc]
    have hc' : is_connected (send_message c m).1 = true := by
      rw [send_message_preserves_connected]; exact hc
    calc (sendAll c (m :: ms)).message_queue
        = (sendAll (send_message c m).1 ms).message_queue := by
          simp [sendAll, List.foldl_cons]
      _ = ms.reverse ++ (send_message c m).1.message_queue := ih _ hc'
      _ = (m :: ms).reverse ++ c.message_queue := by simp [hstep]

/-- Claim C4: for every sequence of send calls made while the
connection is connected, the background loop transmits the enqueued
messages in the same relative order they were enqueued (FIFO): draining
the queue after the sends yields exactly the previously queued
transmissions followed by the new messages in call order. -/
theorem send_fifo_order (c : ListenerClient) (msgs : List String)
    (h : is_connected c = true) :
    transmitAll (sendAll c msgs).message_queue =
      transmitAll c.message_queue ++ msgs := by
  rw [sendAll_queue msgs c h, transmitAll_eq_reverse, transmitAll_eq_reverse]
  simp

theorem send_fifo_order_witness :
    is_connected ⟨some "10.0.0.1", 2980, 1024, [], false, some true, 0⟩ = true ∧
    transmitAll (sendAll ⟨some "10.0.0.1", 2980, 1024, [], false, some true, 0⟩
        ["a", "b", "c"]).message_queue =
      transmitAll ([] : List String) ++ ["a", "b", "c"] := by
  refine ⟨rfl, ?_⟩
  exact send_fifo_order ⟨some "10.0.0.1", 2980, 1024, [], false, some true, 0⟩
    ["a", "b", "c"] rfl

/-- A client that is still connected (live socket) but whose stored
address has been cleared to the empty string (reachable through
`on_setting_ip_address_changed`, plugin_unreal.py lines 84-86). -/
def staleAddrClient : ListenerClient :=
  ⟨some "", 2980, 1024, [], false, some true, 7⟩

/-- Counterexample to claim C5 as stated: on this connect attempt no
endpoint address is known (the stored address is falsy and no argument
is passed), `connect` returns false and starts no worker — but the
pre-existing live socket is untouched, so `is_connected` afterwards is
`true`, not `false`. -/
theorem connect_no_addr_still_connected_counterexample :
    pyTruthyStr staleAddrClient.ip_address = false ∧
    (connect staleAddrClient none false 99).ret = false ∧
    (connect staleAddrClient none false 99).workers_started = 0 ∧
    is_connected (connect staleAddrClient none false 99).state = true := by
  refine ⟨rfl, rfl, rfl, rfl⟩

/-- Claim C5 (amended): a connect attempt with no known endpoint
address returns false, starts no worker and leaves the entire state
(including any live socket) untouched — so `is_connected` stays false
only if the client was not already connected; a connect attempt whose
OS-level connect fails returns false, starts no worker, and leaves
`is_connected` false; a successful attempt opens a connected socket,
starts exactly one background worker and returns true. -/
theorem connect_failure_semantics (c : ListenerClient)
    (ip_arg : Option String) (os_ok : Bool) (now : Nat) :
    (pyTruthyStr ip_arg = false → pyTruthyStr c.ip_address = false →
      connect c ip_arg os_ok now = ⟨false, c, 0⟩) ∧
    ((pyTruthyStr ip_arg = true ∨ pyTruthyStr c.ip_address = true) →
      os_ok = false →
      (connect c ip_arg os_ok now).ret = false ∧
      (connect c ip_arg os_ok now).workers_started = 0 ∧
      is_connected (connect c ip_arg os_ok now).state = false) ∧
    ((pyTruthyStr ip_arg = true ∨ pyTruthyStr c.ip_address = true) →
      os_ok = true →
      (connect c ip_arg os_ok now).ret = true ∧
      (connect c ip_arg os_ok now).workers_started = 1 ∧
      (connect c ip_arg os_ok now).state.socket = some true) := by
  refine ⟨?_, ?_, ?_⟩
  · intro h1 h2
    simp [connect, h1, h2]
  · rintro (h | h) hos <;>
      · subst hos
        cases harg : pyTruthyStr ip_arg <;>
          simp_all [connect, connectBody, is_connected]
  · rintro (h | h) hos <;>
      · subst hos
        cases harg : pyTruthyStr ip_arg <;>
          simp_all [connect, connectBody]

/-- A disconnected client with a stored reachable address. -/
def freshClient : ListenerClient :=
  ⟨some "10.0.0.1", 2980, 1024, [], false, none, 0⟩

theorem connect_failure_semantics_witness :
    ((pyTruthyStr (some "10.0.0.1") = true ∨
        pyTruthyStr freshClient.ip_address = true) ∧
      (connect freshClient (some "10.0.0.1") false 3).ret = false ∧
      (connect freshClient (some "10.0.0.1") false 3).workers_started = 0 ∧
      is_connected (connect freshClient (some "10.0.0.1") false 3).state = false) ∧
    ((pyTruthyStr (none : Option String) = false ∧
        pyTruthyStr (⟨none, 1, 1, [], true, none, 5⟩ : ListenerClient).ip_address = false) ∧
      connect ⟨none, 1, 1, [], true, none, 5⟩ none false 3 =
        ⟨false, ⟨none, 1, 1, [], true, none, 5⟩, 0⟩) := by
  constructor
  · exact ⟨Or.inl rfl,
      (connect_failure_semantics freshClient (some "10.0.0.1") false 3).2.1
        (Or.inl rfl) rfl⟩
  · exact ⟨⟨rfl, rfl⟩,
      (connect_failure_semantics ⟨none, 1, 1, [], true, none, 5⟩ none false 3).1
        rfl rfl⟩

/-- A client with the close-requested flag set, a recorded last-activity
time, and no stored address. -/
def flaggedClient : ListenerClient :=
  ⟨none, 2980, 1024, [], true, none, 5⟩

/-- Counterexample to claim C9 as stated: this connect attempt fails
and returns false (no address is known), yet nothing is mutated — the
close-requested flag is not cleared and the last-activity timestamp is
not reset. -/
theorem connect_no_addr_mutates_nothing_counterexample :
    (connect flaggedClient none false 99).ret = false ∧
    (connect flaggedClient none false 99).state.close_socket = true ∧
    (connect flaggedClient none false 99).state.last_activity = 5 := by
  refine ⟨rfl, rfl, rfl⟩

/-- Claim C9 (amended): for every connect attempt in which an endpoint
address is known (explicitly passed or stored) and the OS-level connect
fails, the state is still mutated: the close-requested flag is cleared,
the last-activity timestamp is reset, the socket handle ends up null,
and a truthy explicit address argument overwrites the stored endpoint
address.  A connect attempt that fails because no address is known
mutates nothing. -/
theorem failed_os_connect_frame_effects (c : ListenerClient)
    (ip_arg : Option String) (now : Nat)
    (h : pyTruthyStr ip_arg = true ∨ pyTruthyStr c.ip_address = true) :
    (connect c ip_arg false now).ret = false ∧
    (connect c ip_arg false now).state.close_socket = false ∧
    (connect c ip_arg false now).state.last_activity = now ∧
    (connect c ip_arg false now).state.socket = none ∧
    (pyTruthyStr ip_arg = true →
      (connect c ip_arg false now).state.ip_address = ip_arg) := by
  rcases h with h | h <;>
    cases harg : pyTruthyStr ip_arg <;>
      simp_all [connect, connectBody]

theorem failed_os_connect_frame_effects_witness :
    (pyTruthyStr (some "10.0.0.2") = true ∨
      pyTruthyStr flaggedClient.ip_address = true) ∧
    (connect flaggedClient (some "10.0.0.2") false 42).ret = false ∧
    (connect flaggedClient (some "10.0.0.2") false 42).state.close_socket = false ∧
    (connect flaggedClient (some "10.0.0.2") false 42).state.last_activity = 42 ∧
    (connect flaggedClient (some "10.0.0.2") false 42).state.socket = none ∧
    (connect flaggedClient (some "10.0.0.2") false 42).state.ip_address =
      some "10.0.0.2" := by
  have h := failed_os_connect_frame_effects flaggedClient (some "10.0.0.2") 42
    (Or.inl rfl)
  exact ⟨Or.inl rfl, h.1, h.2.1, h.2.2.1, h.2.2.2.1, h.2.2.2.2 rfl⟩

/-! ## Device orchestrator model (`DeviceUnreal`, plugin_unreal.py) -/

/-- Modelled from the spec: the `DeviceStatus` enumeration is declared
in `switchboard/devices/device_base.py`, which is not among the source
files; the spec (section 3) lists its states. -/
inductive DeviceStatus where
  | disconnected
  | connecting
  | connected
  | syncing
  | building
  | open_
  | ready
  | closed
deriving DecidableEq, Repr

/-- A dynamically typed Python value as stored in the changelist
fields: an int (e.g. the literal `0` sentinel or a changelist number
passed to `sync`) or a string (a token parsed from `cstat` output). -/
inductive PyVal where
  | int (n : Int)
  | str (s : String)
deriving DecidableEq, Repr

/-- Rendering of a `PyVal` into an f-string, as Python `str()` does. -/
def pyValStr : PyVal → String
  | .int n => toString n
  | .str s => s

/-- A Python exception kind raised by the embedded methods. -/
inductive PyErr where
  | keyError
  | attributeError
deriving DecidableEq, Repr

/-- An outbound message handed to `ListenerClient.send_message`,
built by `message_protocol` (external codec, modelled abstractly). -/
inductive OutMsg where
  | startProcess (message_id : Nat) (exe : String) (args : String)
  | killProcess (program_id : Nat)
deriving DecidableEq, Repr

/-- The delegate a routed message is dispatched to (the delegates
`DeviceUnreal` registers for process-lifecycle events). -/
inductive HandlerKind where
  | programStartedH
  | programStartFailedH
  | programEndedH
  | programKillFailedH
deriving DecidableEq, Repr

/-- One observable side effect of the orchestrator: a log line, a Qt
signal emission, an OSC side effect, a message handed to
`send_message`, a status assignment (the `status` setter lives in the
device base class and is modelled as a plain store that also leaves a
trace event), or the delegate invocation recorded by the router. -/
inductive Event where
  | logInfo (s : String)
  | logError (s : String)
  | logParseError
  | statusSet (st : DeviceStatus)
  | signalSyncFailed
  | oscAddSendTarget
  | sentMessage (m : OutMsg)
  | invoked (k : HandlerKind)
deriving DecidableEq, Repr

/-- The messages among a trace of events that were handed to
`send_message`, in order. -/
def sentMessages (evs : List Event) : List OutMsg :=
  evs.filterMap (fun e => match e with
    | Event.sentMessage m => some m
    | _ => none)

/-- The delegates invoked in a trace of events, in order. -/
def invokedHandlers (evs : List Event) : List HandlerKind :=
  evs.filterMap (fun e => match e with
    | Event.invoked k => some k
    | _ => none)

/-! Python `dict`s keyed by message id or program name are embedded as
association lists with unique keys. -/

/-- Python `d[k]` lookup / `k in d` membership test. -/
def lookupAssoc {α β : Type} [DecidableEq α] : List (α × β) → α → Option β
  | [], _ => none
  | (k, v) :: rest, key => if key = k then some v else lookupAssoc rest key

/-- Removal of a key (all occurrences; keys are unique in a dict). -/
def eraseKey {α β : Type} [DecidableEq α] : List (α × β) → α → List (α × β)
  | [], _ => []
  | (k, v) :: rest, key =>
    if key = k then eraseKey rest key else (k, v) :: eraseKey rest key

/-- Python `dict.pop(k)`: returns the value and the shrunken dict, or
`none` where Python raises `KeyError`. -/
def popAssoc {α β : Type} [DecidableEq α] (l : List (α × β)) (k : α) :
    Option (β × List (α × β)) :=
  match lookupAssoc l k with
  | none => none
  | some v => some (v, eraseKey l k)

/-- Python `d[k] = v`: updates the value in place for an existing key,
appends a new binding otherwise. -/
def setAssoc {α β : Type} [DecidableEq α] (l : List (α × β)) (k : α) (v : β) :
    List (α × β) :=
  if (lookupAssoc l k).isSome then
    l.map (fun p => if p.1 = k then (k, v) else p)
  else
    l ++ [(k, v)]

theorem lookupAssoc_eraseKey {α β : Type} [DecidableEq α]
    (l : List (α × β)) (k : α) : lookupAssoc (eraseKey l k) k = none := by
  induction l with
  | nil => rfl
  | cons p rest ih =>
    obtain ⟨k', v⟩ := p
    by_cases h : k = k'
    · subst h; simp [eraseKey, ih]
    · simp [eraseKey, h, lookupAssoc, ih]

/-- The configuration values (`CONFIG`) the orchestrator reads; the
configuration subsystem itself is out of scope. -/
structure Config where
  engine_dir : String
  uproject_path : String
  p4_path : String
  source_control_workspace : String
  build_engine : Bool
deriving DecidableEq, Repr

/-- State of `DeviceUnreal` (plugin_unreal.py, `__init__`).

* `changelist` and `status` are attributes of the device base class
  (not among the source files); per the spec they are modelled as plain
  stored values, mutated only by the methods embedded here.
* `next_mid` models the fresh command identifier that
  `message_protocol.create_start_process_message` (external codec)
  generates for each sent command; modelled from the spec as a counter
  ("a caller-generated command identifier", spec section 3). -/
structure DeviceUnreal where
  name : String
  status : DeviceStatus
  changelist : PyVal
  inflight_changelist : PyVal
  start_build_after_sync : Bool
  remote_programs_start_queue : List (Nat × String)
  running_remote_program_names : List (Nat × String)
  running_remote_program_ids : List (String × Nat)
  next_mid : Nat
deriving DecidableEq, Repr

/-- Result of running one Python handler: the state and effect trace
at return (or, when `err` is set, as they stood when the exception was
raised — partial mutation before a raise persists, as in Python). -/
structure HandlerResult where
  d : DeviceUnreal
  events : List Event
  err : Option PyErr
deriving DecidableEq, Repr

/-- Python `os.path.join` restricted to the forward-slash form; the
exact separator is irrelevant to every property proved here. -/
def pathJoin (a b : String) : String := a ++ "/" ++ b

/-- The build tool path assembled by `DeviceUnreal.build` (line 174). -/
def build_tool (cfg : Config) : String :=
  pathJoin (pathJoin (pathJoin cfg.engine_dir "Binaries") "DotNET") "UnrealBuildTool"

/-- The build arguments assembled by `DeviceUnreal.build` (line 175). -/
def build_args (cfg : Config) : String :=
  "UE4Editor Win64 Development " ++ cfg.uproject_path ++ " -progress"

/-- `DeviceUnreal.build` (lines 168-180): while status is `Syncing`
the build is only scheduled (PendingBuildFlag); otherwise the build
command is sent, the command id is recorded in the in-flight table
under the label "build", and status becomes `Building`. -/
def build (cfg : Config) (d : DeviceUnreal) : DeviceUnreal × List Event :=
  if d.status = DeviceStatus.syncing then
    ({ d with start_build_after_sync := true },
     [Event.logInfo (d.name ++ ": Build scheduled to start after successful sync operation")])
  else
    let mid := d.next_mid
    let d := { d with
      next_mid := mid + 1,
      remote_programs_start_queue := setAssoc d.remote_programs_start_queue mid "build" }
    ({ d with status := DeviceStatus.building },
     [Event.logInfo (d.name ++ ": Sending build command: " ++ build_tool cfg ++ " " ++ build_args cfg),
      Event.sentMessage (OutMsg.startProcess mid (build_tool cfg) (build_args cfg)),
      Event.statusSet DeviceStatus.building])

/-- `DeviceUnreal.sync` (lines 144-166): records the target changelist
as in-flight, assembles the sync command (two shapes, depending on
whether the engine itself is built from source), records the command id
under the label "sync", sends, and enters `Syncing`. -/
def sync (cfg : Config) (d : DeviceUnreal) (changelist : PyVal) :
    DeviceUnreal × List Event :=
  let d := { d with inflight_changelist := changelist }
  let sync_tool : String :=
    if cfg.build_engine then
      pathJoin (pathJoin (pathJoin cfg.engine_dir "Build") "BatchFiles") "RunUAT.bat"
    else "p4"
  let sync_args : String :=
    if cfg.build_engine then
      "-P4 SyncProject -project=\"" ++ cfg.uproject_path ++ "\" -cl=" ++
        pyValStr changelist ++ " -threads=8 -generate"
    else
      "-c" ++ cfg.source_control_workspace ++ " sync " ++ cfg.p4_path ++
        "/...@" ++ pyValStr changelist
  let mid := d.next_mid
  let d := { d with
    next_mid := mid + 1,
    remote_programs_start_queue := setAssoc d.remote_programs_start_queue mid "sync" }
  ({ d with status := DeviceStatus.syncing },
   [Event.logInfo (d.name ++ ": Syncing project to revision " ++ pyValStr changelist),
    Event.logInfo (d.name ++ ": Sending sync command: " ++ sync_tool ++ " " ++ sync_args),
    Event.sentMessage (OutMsg.startProcess mid sync_tool sync_args),
    Event.statusSet DeviceStatus.syncing])

/-- `DeviceUnreal.close` (lines 182-188): looks up the program id
registered under the label "unreal"; if present, sends one kill
command; on `KeyError` (no such program), sets status to `Closed`.
The `force` argument is accepted and ignored, as in the source. -/
def close (d : DeviceUnreal) (force : Bool) : DeviceUnreal × List Event :=
  match lookupAssoc d.running_remote_program_ids "unreal" with
  | some program_id =>
    (d, [Event.sentMessage (OutMsg.killProcess program_id)])
  | none =>
    ({ d with status := DeviceStatus.closed },
     [Event.statusSet DeviceStatus.closed])

/-! ### Python string primitives

The embedded string operations are re-implemented structurally on the
character list so that they evaluate on concrete inputs. -/

/-- Splits a character list at every character satisfying `p`,
returning the chunk before the first split point and the remaining
chunks. -/
def splitOnPredCore (p : Char → Bool) : List Char → List Char × List (List Char)
  | [] => ([], [])
  | x :: xs =>
    let r := splitOnPredCore p xs
    if p x then ([], r.1 :: r.2) else (x :: r.1, r.2)

/-- All chunks obtained by splitting at every character satisfying
`p`; always nonempty, with empty chunks between adjacent split
points (as Python's `str.split(sep)` produces). -/
def splitOnPred (p : Char → Bool) (l : List Char) : List (List Char) :=
  (splitOnPredCore p l).1 :: (splitOnPredCore p l).2

/-- Python `str.split()` with no separator: splits on whitespace and
discards empty tokens (hence: splits on whitespace runs). -/
def pySplitWs (s : String) : List String :=
  ((splitOnPred Char.isWhitespace s.toList).map String.mk).filter (fun t => !t.isEmpty)

/-- Python `str.strip()`: removes leading and trailing whitespace. -/
def pyStripWs (s : String) : String :=
  String.mk (((s.toList.dropWhile Char.isWhitespace).reverse.dropWhile
    Char.isWhitespace).reverse)

/-- Python `str.strip('"')`: removes all leading and trailing double
quote characters. -/
def pyStripQuotes (s : String) : String :=
  String.mk (((s.toList.dropWhile (fun x => x = '"')).reverse.dropWhile
    (fun x => x = '"')).reverse)

/-- Strips `pat` from the front of `l`, or `none` when `pat` is not a
prefix of `l`. -/
def dropPre : List Char → List Char → Option (List Char)
  | [], s => some s
  | _ :: _, [] => none
  | p :: ps, c :: cs => if c = p then dropPre ps cs else none

/-- Worker for `pySplitOn`: scans the input left to right, cutting at
every occurrence of the (nonempty) separator `s0 :: sep`.  The fuel is
the input length, which bounds the number of scanning steps, so the
zero-fuel fallback is never reached. -/
def pySplitOnAux (s0 : Char) (sep : List Char) :
    Nat → List Char → List Char → List (List Char)
  | _, [], acc => [acc.reverse]
  | 0, l, acc => [acc.reverse ++ l]
  | Nat.succ fuel, c :: rest, acc =>
    match dropPre (s0 :: sep) (c :: rest) with
    | some rem => acc.reverse :: pySplitOnAux s0 sep fuel rem []
    | none => pySplitOnAux s0 sep fuel rest (c :: acc)

/-- Python `str.split(sep)` for a nonempty separator: the chunks
between non-overlapping occurrences of `sep`, scanned left to right;
`n + 1` chunks for `n` occurrences. -/
def pySplitOn (s : String) (sep : String) : List String :=
  match sep.toList with
  | [] => [s]
  | s0 :: rest => (pySplitOnAux s0 rest s.toList.length s.toList []).map String.mk

/-- Python `str.splitlines` for newline-separated process output (a
trailing newline does not contribute an empty final line; the empty
string has no lines). -/
def pySplitlines (s : String) : List String :=
  let parts := pySplitOn s "\n"
  if parts.getLast? = some "" then parts.dropLast else parts

/-! ### Router callbacks -/

/-- `DeviceUnreal.on_program_started` (lines 231-239): pops the
in-flight entry for the command id (`KeyError` when absent — the pop is
the first statement, so nothing is mutated or logged in that case),
then records the running-program mappings; for the launch label
"unreal" it also enters `Open` and registers the OSC send target. -/
def on_program_started (d : DeviceUnreal) (program_id : Nat) (message_id : Nat) :
    HandlerResult :=
  match popAssoc d.remote_programs_start_queue message_id with
  | none => ⟨d, [], some PyErr.keyError⟩
  | some (program_name, queue') =>
    let d := { d with remote_programs_start_queue := queue' }
    let evs := [Event.logInfo (d.name ++ ": " ++ program_name ++ " was successfully started")]
    let step : DeviceUnreal × List Event :=
      if program_name = "unreal" then
        ({ d with status := DeviceStatus.open_ },
         evs ++ [Event.statusSet DeviceStatus.open_, Event.oscAddSendTarget])
      else (d, evs)
    ⟨{ step.1 with
        running_remote_program_names :=
          setAssoc step.1.running_remote_program_names program_id program_name,
        running_remote_program_ids :=
          setAssoc step.1.running_remote_program_ids program_name program_id },
      step.2, none⟩

/-- `DeviceUnreal.on_program_start_failed` (lines 241-246): pops the
in-flight entry (`KeyError` when absent), logs the error, and for the
labels "sync" and "build" enters `Closed` and re-assigns the changelist
to itself to force a display refresh. -/
def on_program_start_failed (d : DeviceUnreal) (error : String) (message_id : Nat) :
    HandlerResult :=
  match popAssoc d.remote_programs_start_queue message_id with
  | none => ⟨d, [], some PyErr.keyError⟩
  | some (program_name, queue') =>
    let d := { d with remote_programs_start_queue := queue' }
    let evs := [Event.logError ("Could not start " ++ program_name ++ ": " ++ error)]
    if program_name = "sync" ∨ program_name = "build" then
      ⟨{ d with status := DeviceStatus.closed, changelist := d.changelist },
        evs ++ [Event.statusSet DeviceStatus.closed], none⟩
    else ⟨d, evs, none⟩

/-- The error `on_program_ended` logs when a sync ends nonzero. -/
def sync_fail_msg (name : String) : String :=
  name ++ ": Project was not synced successfully!"

/-- The configuration error `on_program_ended` logs when the
changelist query returns no tokens (line 285). -/
def cstat_error_msg (name : String) : String :=
  name ++ ": Could not retrieve changelists for project. Are the Source Control Settings correctly configured?"

/-- `DeviceUnreal.on_program_ended` (lines 248-285): pops both
running-program mappings (each a potential `KeyError`; a failure of the
second pop keeps the first pop's mutation, as in Python), then branches
on the program label:
* "unreal": status `Closed`;
* "sync": status `Closed`; nonzero return code logs the output line by
  line and emits the sync-failed signal; return code 0 commits the
  in-flight changelist and, if the pending-build flag is set, clears it
  and calls `build`; either way the in-flight changelist is reset to 0;
* "build": logs the outcome (output line by line on failure), status
  `Closed`, changelist re-assigned to itself to refresh the display;
* "cstat": splits the output on whitespace, strips each token; a
  nonempty token list sets the changelist to the last token, an empty
  one logs a configuration error. -/
def on_program_ended (cfg : Config) (d : DeviceUnreal) (program_id : Nat)
    (returncode : Int) (output : String) : HandlerResult :=
  let evs := [Event.logInfo (d.name ++ ": Program exited with returncode " ++ toString returncode)]
  match popAssoc d.running_remote_program_names program_id with
  | none => ⟨d, evs, some PyErr.keyError⟩
  | some (program_name, names') =>
    let d := { d with running_remote_program_names := names' }
    match popAssoc d.running_remote_program_ids program_name with
    | none => ⟨d, evs, some PyErr.keyError⟩
    | some (_, ids') =>
      let d := { d with running_remote_program_ids := ids' }
      if program_name = "unreal" then
        ⟨{ d with status := DeviceStatus.closed },
          evs ++ [Event.statusSet DeviceStatus.closed], none⟩
      else if program_name = "sync" then
        let d := { d with status := DeviceStatus.closed }
        let evs := evs ++ [Event.statusSet DeviceStatus.closed]
        let step : DeviceUnreal × List Event :=
          if returncode ≠ 0 then
            (d, evs ++ [Event.logError (sync_fail_msg d.name)] ++
              (pySplitlines output).map (fun line => Event.logError (d.name ++ ": " ++ line)) ++
              [Event.signalSyncFailed])
          else
            let evs := evs ++ [Event.logInfo (d.name ++ ": Project was synced successfully")]
            let d := { d with changelist := d.inflight_changelist }
            if d.start_build_after_sync then
              let d := { d with start_build_after_sync := false }
              let r := build cfg d
              (r.1, evs ++ r.2)
            else (d, evs)
        ⟨{ step.1 with inflight_changelist := PyVal.int 0 }, step.2, none⟩
      else if program_name = "build" then
        let evs := evs ++
          (if returncode = 0 then
            [Event.logInfo (d.name ++ ": Project was built successfully!")]
          else
            [Event.logError (d.name ++ ": Project was not built successfully!")] ++
              (pySplitlines output).map (fun line => Event.logError (d.name ++ ": " ++ line)))
        ⟨{ d with status := DeviceStatus.closed, changelist := d.changelist },
          evs ++ [Event.statusSet DeviceStatus.closed], none⟩
      else if program_name = "cstat" then
        let changelists := (pySplitWs output).map pyStripWs
        match changelists.getLast? with
        | some current_changelist =>
          ⟨{ d with changelist := PyVal.str current_changelist },
            evs ++ [Event.logInfo (d.name ++ ": Project is on revision " ++ current_changelist)],
            none⟩
        | none => ⟨d, evs ++ [Event.logError (cstat_error_msg d.name)], none⟩
      else ⟨d, evs, none⟩

/-- `DeviceUnreal.on_program_kill_failed` (lines 287-291).  Line 288
evaluates `self._running_remote_program_ids["unreal"]` — a `KeyError`
when no program is registered under "unreal" — and calls
`.pop(program_id)` on the resulting value, which is a program id
(`uuid.UUID`), not a dict, so the attribute access raises
`AttributeError`.  Either way the method raises before its logging and
`self.status = DeviceStatus.CLOSED` statements, which are unreachable. -/
def on_program_kill_failed (d : DeviceUnreal) (program_id : Nat) (error : String) :
    HandlerResult :=
  match lookupAssoc d.running_remote_program_ids "unreal" with
  | none => ⟨d, [], some PyErr.keyError⟩
  | some _ => ⟨d, [], some PyErr.attributeError⟩

/-! ### Message routing -/

/-- An inbound decoded message, restricted to the discriminators whose
delegates `DeviceUnreal` registers for process lifecycle plus the
command-acknowledgement kind (whose delegate `DeviceUnreal` leaves
unset); the file-transfer and vcs discriminators are routed the same
way and are orthogonal to every claim. -/
inductive InMsg where
  | commandAccepted (id : Nat) (accepted : Bool) (error : String)
  | programStarted (message_id : Nat) (started : Bool) (program_id : Nat) (error : String)
  | programEnded (program_id : Nat) (returncode : Int) (output : String)
  | programKilled (program_id : Nat) (killed : Bool) (error : String)
deriving DecidableEq, Repr

/-- Records in the trace which delegate the router invoked. -/
def withInvoked (k : HandlerKind) (r : HandlerResult) : HandlerResult :=
  ⟨r.d, Event.invoked k :: r.events, r.err⟩

/-- `ListenerClient.route_message` (lines 161-244), applied to the
delegates `DeviceUnreal` registers: `program started` goes to
`on_program_started` or `on_program_start_failed` depending on its
boolean, `program ended` to `on_program_ended`, `program killed` with a
false boolean to `on_program_kill_failed`; a true `program killed`
boolean and command acknowledgements find no registered delegate and do
nothing. -/
def route_message (cfg : Config) (d : DeviceUnreal) (m : InMsg) : HandlerResult :=
  match m with
  | InMsg.commandAccepted _ _ _ => ⟨d, [], none⟩
  | InMsg.programStarted message_id started program_id error =>
    if started then
      withInvoked HandlerKind.programStartedH (on_program_started d program_id message_id)
    else
      withInvoked HandlerKind.programStartFailedH (on_program_start_failed d error message_id)
  | InMsg.programEnded program_id returncode output =>
    withInvoked HandlerKind.programEndedH (on_program_ended cfg d program_id returncode output)
  | InMsg.programKilled program_id killed error =>
    if killed then ⟨d, [], none⟩
    else withInvoked HandlerKind.programKillFailedH (on_program_kill_failed d program_id error)

/-- The `try`/`except` wrapper in `process_received_data`
(lines 259-262): a raise escaping `route_message` is caught and logged
(with its traceback) without terminating the loop; the state keeps any
mutation made before the raise. -/
def dispatchCaught (cfg : Config) (d : DeviceUnreal) (m : InMsg) :
    DeviceUnreal × List Event :=
  let r := route_message cfg d m
  match r.err with
  | none => (r.d, r.events)
  | some _ => (r.d, r.events ++ [Event.logParseError])

/-! ## Claims about the orchestrator -/

/-- Claim C1 (code-bug evidence): the kill-failed handler raises on its
first statement for every device state — `KeyError` when no "unreal"
program is registered, otherwise `AttributeError` from calling `.pop`
on the stored program id — so it never logs the error, never mutates
the state, and never forces the status to `Closed`; the exception
escapes to the router instead. -/
theorem on_program_kill_failed_always_faults (d : DeviceUnreal)
    (program_id : Nat) (error : String) :
    (on_program_kill_failed d program_id error).d = d ∧
    (on_program_kill_failed d program_id error).events = [] ∧
    (on_program_kill_failed d program_id error).err.isSome = true := by
  unfold on_program_kill_failed
  cases lookupAssoc d.running_remote_program_ids "unreal" <;> exact ⟨rfl, rfl, rfl⟩

/-- Claim C7: `close` with no program registered under the launch label
"unreal" transitions status directly to `Closed` and hands zero
messages to the connection; with a registered program it hands exactly
one kill command to the connection and leaves the state, in particular
the status, unchanged. -/
theorem close_idempotent_or_single_kill (d : DeviceUnreal) (force : Bool) :
    (lookupAssoc d.running_remote_program_ids "unreal" = none →
      close d force =
        ({ d with status := DeviceStatus.closed }, [Event.statusSet DeviceStatus.closed]) ∧
      sentMessages (close d force).2 = []) ∧
    (∀ program_id,
      lookupAssoc d.running_remote_program_ids "unreal" = some program_id →
      close d force = (d, [Event.sentMessage (OutMsg.killProcess program_id)]) ∧
      (close d force).1.status = d.status) := by
  constructor
  · intro h
    simp [close, h, sentMessages]
  · intro pid h
    simp [close, h, sentMessages]

/-- A concrete device state used by the witnesses: an idle device. -/
def idleDevice : DeviceUnreal :=
  ⟨"node1", DeviceStatus.closed, PyVal.int 900, PyVal.int 0, false, [], [], [], 0⟩

/-- A concrete device state used by the witnesses: a launched unreal
program with id 7 is running. -/
def launchedDevice : DeviceUnreal :=
  ⟨"node1", DeviceStatus.open_, PyVal.int 900, PyVal.int 0, false, [],
    [(7, "unreal")], [("unreal", 7)], 1⟩

theorem close_idempotent_or_single_kill_witness :
    (lookupAssoc idleDevice.running_remote_program_ids "unreal" = none ∧
      close idleDevice true =
        ({ idleDevice with status := DeviceStatus.closed },
          [Event.statusSet DeviceStatus.closed]) ∧
      sentMessages (close idleDevice true).2 = []) ∧
    (lookupAssoc launchedDevice.running_remote_program_ids "unreal" = some 7 ∧
      close launchedDevice false =
        (launchedDevice, [Event.sentMessage (OutMsg.killProcess 7)]) ∧
      (close launchedDevice false).1.status = launchedDevice.status) := by
  constructor
  · exact ⟨rfl, (close_idempotent_or_single_kill idleDevice true).1 rfl⟩
  · exact ⟨rfl, (close_idempotent_or_single_kill launchedDevice false).2 7 rfl⟩

/-- Claim C6: dispatching a start-confirmed message for a command id
recorded in the in-flight table removes that entry (afterwards the
lookup is empty), invokes exactly the start-confirmed delegate and no
other, and raises nothing; dispatching a second start-confirmed message
for the already-consumed id does not silently succeed: the handler
faults on the missing entry before mutating anything, and the loop
catches and logs the fault, leaving the state unchanged. -/
theorem start_confirmed_consumes_entry_once (cfg : Config) (d : DeviceUnreal)
    (message_id program_id : Nat) (pname : String)
    (h : lookupAssoc d.remote_programs_start_queue message_id = some pname) :
    lookupAssoc (dispatchCaught cfg d
        (InMsg.programStarted message_id true program_id "")).1.remote_programs_start_queue
      message_id = none ∧
    invokedHandlers (dispatchCaught cfg d
        (InMsg.programStarted message_id true program_id "")).2 =
      [HandlerKind.programStartedH] ∧
    Event.logParseError ∉ (dispatchCaught cfg d
        (InMsg.programStarted message_id true program_id "")).2 ∧
    dispatchCaught cfg (dispatchCaught cfg d
        (InMsg.programStarted message_id true program_id "")).1
      (InMsg.programStarted message_id true program_id "") =
      ((dispatchCaught cfg d (InMsg.programStarted message_id true program_id "")).1,
        [Event.invoked HandlerKind.programStartedH, Event.logParseError]) := by
  by_cases hu : pname = "unreal" <;>
    simp [dispatchCaught, route_message, withInvoked, on_program_started, popAssoc, h, hu,
      lookupAssoc_eraseKey, invokedHandlers]

/-- A concrete configuration used by the witnesses. -/
def cfg0 : Config :=
  ⟨"C:/Engine", "C:/Proj/Proj.uproject", "//depot/stream", "ws1", false⟩

/-- A concrete device state used by the witnesses: a launch command
with id 5 is in flight, awaiting its start confirmation. -/
def awaitingLaunchDevice : DeviceUnreal :=
  ⟨"node1", DeviceStatus.connected, PyVal.int 900, PyVal.int 0, false,
    [(5, "unreal")], [], [], 6⟩

theorem start_confirmed_consumes_entry_once_witness :
    lookupAssoc awaitingLaunchDevice.remote_programs_start_queue 5 = some "unreal" ∧
    (lookupAssoc (dispatchCaught cfg0 awaitingLaunchDevice
        (InMsg.programStarted 5 true 7 "")).1.remote_programs_start_queue 5 = none ∧
      invokedHandlers (dispatchCaught cfg0 awaitingLaunchDevice
          (InMsg.programStarted 5 true 7 "")).2 = [HandlerKind.programStartedH] ∧
      dispatchCaught cfg0 (dispatchCaught cfg0 awaitingLaunchDevice
          (InMsg.programStarted 5 true 7 "")).1 (InMsg.programStarted 5 true 7 "") =
        ((dispatchCaught cfg0 awaitingLaunchDevice (InMsg.programStarted 5 true 7 "")).1,
          [Event.invoked HandlerKind.programStartedH, Event.logParseError])) := by
  have h := start_confirmed_consumes_entry_once cfg0 awaitingLaunchDevice 5 7 "unreal" rfl
  exact ⟨rfl, h.1, h.2.1, h.2.2.2⟩

/-- Claim C2: for every sync whose remote process ends with return
code 0, the in-flight changelist becomes the current changelist, status
`Closed` is entered (trace event), and the pending-build flag, if set,
is cleared and `build` runs — the build command is handed to the
connection and the final status is `Building`; if the flag was not set
the final status is `Closed`. -/
theorem sync_success_commits_changelist (cfg : Config) (d : DeviceUnreal)
    (program_id : Nat) (output : String) (pid2 : Nat)
    (h1 : lookupAssoc d.running_remote_program_names program_id = some "sync")
    (h2 : lookupAssoc d.running_remote_program_ids "sync" = some pid2) :
    (on_program_ended cfg d program_id 0 output).err = none ∧
    (on_program_ended cfg d program_id 0 output).d.changelist = d.inflight_changelist ∧
    (on_program_ended cfg d program_id 0 output).d.start_build_after_sync = false ∧
    Event.statusSet DeviceStatus.closed ∈ (on_program_ended cfg d program_id 0 output).events ∧
    (d.start_build_after_sync = false →
      (on_program_ended cfg d program_id 0 output).d.status = DeviceStatus.closed) ∧
    (d.start_build_after_sync = true →
      (on_program_ended cfg d program_id 0 output).d.status = DeviceStatus.building ∧
      Event.sentMessage (OutMsg.startProcess d.next_mid (build_tool cfg) (build_args cfg))
        ∈ (on_program_ended cfg d program_id 0 output).events) := by
  cases hb : d.start_build_after_sync <;>
    simp [on_program_ended, popAssoc, h1, h2, hb, build]

/-- A concrete device state used by the witnesses: a sync to
changelist 1234 is running as remote program 3, and a build was
requested while syncing (pending-build flag set). -/
def syncingDevice : DeviceUnreal :=
  ⟨"node1", DeviceStatus.syncing, PyVal.int 900, PyVal.int 1234, true,
    [], [(3, "sync")], [("sync", 3)], 4⟩

theorem sync_success_commits_changelist_witness :
    (lookupAssoc syncingDevice.running_remote_program_names 3 = some "sync" ∧
      lookupAssoc syncingDevice.running_remote_program_ids "sync" = some 3 ∧
      syncingDevice.start_build_after_sync = true) ∧
    ((on_program_ended cfg0 syncingDevice 3 0 "").err = none ∧
      (on_program_ended cfg0 syncingDevice 3 0 "").d.changelist =
        syncingDevice.inflight_changelist ∧
      (on_program_ended cfg0 syncingDevice 3 0 "").d.start_build_after_sync = false ∧
      Event.statusSet DeviceStatus.closed ∈ (on_program_ended cfg0 syncingDevice 3 0 "").events ∧
      (on_program_ended cfg0 syncingDevice 3 0 "").d.status = DeviceStatus.building ∧
      Event.sentMessage (OutMsg.startProcess syncingDevice.next_mid (build_tool cfg0)
          (build_args cfg0)) ∈ (on_program_ended cfg0 syncingDevice 3 0 "").events) := by
  have h := sync_success_commits_changelist cfg0 syncingDevice 3 "" 3 rfl rfl
  exact ⟨⟨rfl, rfl, rfl⟩, h.1, h.2.1, h.2.2.1, h.2.2.2.1,
    (h.2.2.2.2.2 rfl).1, (h.2.2.2.2.2 rfl).2⟩

/-- Claim C3: for every sync whose remote process ends with a nonzero
return code, the status becomes `Closed`, the current changelist keeps
its prior value, every line of the captured output is logged as an
error, and the sync-failed signal is emitted. -/
theorem sync_failure_closes_and_reports (cfg : Config) (d : DeviceUnreal)
    (program_id : Nat) (returncode : Int) (output : String) (pid2 : Nat)
    (h1 : lookupAssoc d.running_remote_program_names program_id = some "sync")
    (h2 : lookupAssoc d.running_remote_program_ids "sync" = some pid2)
    (hrc : returncode ≠ 0) :
    (on_program_ended cfg d program_id returncode output).err = none ∧
    (on_program_ended cfg d program_id returncode output).d.status = DeviceStatus.closed ∧
    (on_program_ended cfg d program_id returncode output).d.changelist = d.changelist ∧
    Event.signalSyncFailed ∈ (on_program_ended cfg d program_id returncode output).events ∧
    ∀ line ∈ pySplitlines output,
      Event.logError (d.name ++ ": " ++ line) ∈
        (on_program_ended cfg d program_id returncode output).events := by
  simp [on_program_ended, popAssoc, h1, h2, hrc]
  exact fun line hl => Or.inr ⟨line, hl, rfl⟩

/-- A concrete device state used by the witnesses: a sync to
changelist 1234 is running as remote program 3, no pending build. -/
def syncingDevice2 : DeviceUnreal :=
  ⟨"node1", DeviceStatus.syncing, PyVal.int 900, PyVal.int 1234, false,
    [], [(3, "sync")], [("sync", 3)], 4⟩

theorem sync_failure_closes_and_reports_witness :
    (lookupAssoc syncingDevice2.running_remote_program_names 3 = some "sync" ∧
      lookupAssoc syncingDevice2.running_remote_program_ids "sync" = some 3 ∧
      (5 : Int) ≠ 0) ∧
    ((on_program_ended cfg0 syncingDevice2 3 5 "error: conflict").err = none ∧
      (on_program_ended cfg0 syncingDevice2 3 5 "error: conflict").d.status =
        DeviceStatus.closed ∧
      (on_program_ended cfg0 syncingDevice2 3 5 "error: conflict").d.changelist =
        syncingDevice2.changelist ∧
      Event.signalSyncFailed ∈
        (on_program_ended cfg0 syncingDevice2 3 5 "error: conflict").events ∧
      Event.logError (syncingDevice2.name ++ ": " ++ "error: conflict") ∈
        (on_program_ended cfg0 syncingDevice2 3 5 "error: conflict").events) := by
  have h := sync_failure_closes_and_reports cfg0 syncingDevice2 3 5 "error: conflict" 3
    rfl rfl (by decide)
  exact ⟨⟨rfl, rfl, by decide⟩, h.1, h.2.1, h.2.2.1, h.2.2.2.1,
    h.2.2.2.2 "error: conflict" (by decide)⟩

/-- Claim C8: on completion of the changelist query, the process
output is split into whitespace-separated tokens; when there is at
least one token the last one becomes the current changelist, and when
there is none (in particular for empty output) a configuration error is
logged and the changelist keeps its prior value.  The status is not
touched on this path. -/
theorem cstat_parses_last_token (cfg : Config) (d : DeviceUnreal)
    (program_id : Nat) (returncode : Int) (output : String) (pid2 : Nat)
    (h1 : lookupAssoc d.running_remote_program_names program_id = some "cstat")
    (h2 : lookupAssoc d.running_remote_program_ids "cstat" = some pid2) :
    (on_program_ended cfg d program_id returncode output).err = none ∧
    (on_program_ended cfg d program_id returncode output).d.status = d.status ∧
    (∀ tok, ((pySplitWs output).map pyStripWs).getLast? = some tok →
      (on_program_ended cfg d program_id returncode output).d.changelist = PyVal.str tok) ∧
    ((pySplitWs output).map pyStripWs = [] →
      (on_program_ended cfg d program_id returncode output).d.changelist = d.changelist ∧
      Event.logError (cstat_error_msg d.name) ∈
        (on_program_ended cfg d program_id returncode output).events) := by
  cases hL : ((pySplitWs output).map pyStripWs).getLast? with
  | none =>
    simp [on_program_ended, popAssoc, h1, h2, hL]
  | some tok =>
    have : (pySplitWs output).map pyStripWs ≠ [] := by
      intro he; rw [he] at hL; exact Option.noConfusion hL
    simp [on_program_ended, popAssoc, h1, h2, hL, this]

/-- A concrete device state used by the witnesses: the changelist
query is running as remote program 9. -/
def cstatDevice : DeviceUnreal :=
  ⟨"node1", DeviceStatus.closed, PyVal.int 900, PyVal.int 0, false,
    [], [(9, "cstat")], [("cstat", 9)], 2⟩

theorem cstat_parses_last_token_witness :
    (lookupAssoc cstatDevice.running_remote_program_names 9 = some "cstat" ∧
      lookupAssoc cstatDevice.running_remote_program_ids "cstat" = some 9) ∧
    (on_program_ended cfg0 cstatDevice 9 0 "1000\n1005\n1007").d.changelist =
      PyVal.str "1007" ∧
    ((on_program_ended cfg0 cstatDevice 9 0 "").d.changelist = cstatDevice.changelist ∧
      Event.logError (cstat_error_msg cstatDevice.name) ∈
        (on_program_ended cfg0 cstatDevice 9 0 "").events) := by
  refine ⟨⟨rfl, rfl⟩, ?_, ?_⟩
  · exact (cstat_parses_last_token cfg0 cstatDevice 9 0 "1000\n1005\n1007" 9 rfl rfl).2.2.1
      "1007" (by decide)
  · exact (cstat_parses_last_token cfg0 cstatDevice 9 0 "" 9 rfl rfl).2.2.2 (by decide)

/-! ## Tag file parser (`parse_unreal_tag_file`, plugin_unreal.py lines 317-326) -/

/-- Python `str.startswith`. -/
def pyStartsWith (s pre : String) : Bool :=
  pre.toList.isPrefixOf s.toList

/-- The per-line tag extraction of `parse_unreal_tag_file`
(lines 322-324): `line.split("Tag=")[1]` (`none` models the uncaught
`IndexError` when the line contains no "Tag=" occurrence, so that the
split has a single chunk), then `split(',', 1)[0]` (the text before the
first comma), then `strip('"')`. -/
def tagFromLine (line : String) : Option String :=
  match pySplitOn line "Tag=" with
  | _ :: p1 :: _ => some (pyStripQuotes ((pySplitOn p1 ",").headD ""))
  | _ => none

/-- `parse_unreal_tag_file` (lines 317-326): collects one tag from
every line starting with "GameplayTagList", in order; a
"GameplayTagList" line without a "Tag=" marker raises an uncaught
`IndexError`, modelled as `Except.error`. -/
def parse_unreal_tag_file : List String → Except Unit (List String)
  | [] => Except.ok []
  | line :: rest =>
    if pyStartsWith line "GameplayTagList" then
      match tagFromLine line with
      | none => Except.error ()
      | some tag =>
        match parse_unreal_tag_file rest with
        | Except.error e => Except.error e
        | Except.ok tags => Except.ok (tag :: tags)
    else parse_unreal_tag_file rest

/-- Whether a line contains the "Tag=" field marker, phrased through
the very split the code performs: at least one occurrence iff the split
has at least two chunks. -/
def containsTagMarker (line : String) : Bool :=
  match pySplitOn line "Tag=" with
  | _ :: _ :: _ => true
  | _ => false

/-- The extraction `parse_unreal_tag_file` applies to each line: one
tag for each "GameplayTagList" line, nothing for the others. -/
def extractTag (line : String) : Option String :=
  if pyStartsWith line "GameplayTagList" then tagFromLine line else none

theorem tagFromLine_isSome_of_marker (line : String)
    (h : containsTagMarker line = true) : ∃ t, tagFromLine line = some t := by
  unfold containsTagMarker at h
  unfold tagFromLine
  rcases hm : pySplitOn line "Tag=" with _ | ⟨a, _ | ⟨b, rest⟩⟩ <;>
    rw [hm] at h <;> simp_all

/-- Claim C10: a line that starts with "GameplayTagList" but carries no
"Tag=" field marker makes the parser raise an uncaught index error
(first conjunct, at a concrete input); and on every input whose
"GameplayTagList" lines all contain the marker the parser returns,
without error, the list that takes from each such line the text between
"Tag=" and the next comma with the surrounding quotes stripped. -/
theorem tag_file_parser_safety :
    parse_unreal_tag_file ["GameplayTagList=(DevComment=\"x\")"] = Except.error () ∧
    ∀ lines : List String,
      (∀ line ∈ lines, pyStartsWith line "GameplayTagList" = true →
        containsTagMarker line = true) →
      parse_unreal_tag_file lines = Except.ok (lines.filterMap extractTag) := by
  constructor
  · rfl
  · intro lines h
    induction lines with
    | nil => rfl
    | cons l rest ih =>
      have hrest : ∀ line ∈ rest, pyStartsWith line "GameplayTagList" = true →
          containsTagMarker line = true :=
        fun x hx => h x (List.mem_cons_of_mem _ hx)
      by_cases hs : pyStartsWith l "GameplayTagList" = true
      · obtain ⟨t, ht⟩ := tagFromLine_isSome_of_marker l (h l (List.mem_cons_self _ _) hs)
        simp [parse_unreal_tag_file, extractTag, hs, ht, ih hrest]
      · simp [parse_unreal_tag_file, extractTag, hs, ih hrest]

theorem tag_file_parser_safety_witness :
    parse_unreal_tag_file ["GameplayTagList=(Tag=\"A.B\",DevComment=\"c\")", "; comment",
        "GameplayTagList=(Tag=\"X.Y\",DevComment=\"\")"] = Except.ok ["A.B", "X.Y"] := by
  rw [tag_file_parser_safety.2 _ (by decide)]
  rfl

end Switchboard
